import Mathlib

/-!
Verification of the NATS JetStream event-bus client
(`src/shared/python-common/src/artisan_common/events.py`).

The client is shallowly embedded: JSON values are an inductive type, the
mutable fields of the Python `NATSClient` object (`_nc`, `_js` set or `None`)
become a `ClientState` record, broker calls and structured-log emissions
become explicit traces, and the nondeterministic inputs of `publish`
(the freshly generated UUID, the current timestamp, the broker's publish
acknowledgment) are passed as parameters.
-/

namespace ArtisanEvents

/-- JSON values, as produced by Python `json.loads` and consumed by
`json.dumps`.  Objects are ordered lists of key/value pairs (Python dicts
preserve insertion order; `json.loads` keeps the last binding of a
duplicated key, which `lookupLast` below reproduces). -/
inductive Json where
  | null
  | bool (b : Bool)
  | num (n : Int)
  | str (s : String)
  | arr (elems : List Json)
  | obj (fields : List (String × Json))

/-- Lookup in a JSON object's field list with Python-dict semantics:
the last binding of a key wins. -/
def lookupLast (fields : List (String × Json)) (key : String) : Option Json :=
  fields.foldl (fun acc kv => if kv.1 = key then some kv.2 else acc) none

/-- Python `dict.get(key, default)` on a parsed JSON object's fields. -/
def getD (fields : List (String × Json)) (key : String) (dflt : Json) : Json :=
  (lookupLast fields key).getD dflt

/-- Top-level keys of a JSON value (empty for non-objects), in serialization
order: `json.dumps` writes a dict's keys in insertion order. -/
def Json.topKeys : Json → List String
  | .obj fields => fields.map (fun p => p.1)
  | _ => []

/-- Top-level field lookup on a JSON value (none for non-objects). -/
def Json.lookup : Json → String → Option Json
  | .obj fields, key => lookupLast fields key
  | _, _ => none

/-- The broker's publish acknowledgment (`ack.stream`, `ack.seq` in the
source), supplied by the external JetStream broker. -/
structure PubAck where
  stream : String
  seq : Nat
deriving Repr, DecidableEq

/-- Structured log records emitted through `structlog`, with the fields the
source attaches to each event. -/
inductive LogRecord where
  | natsConnected (url : String) (stream : String)
  | eventPublished (subject : String) (stream : String) (seq : Nat)
  | eventSubscribed (subject : String) (durable : String)
  | eventHandlerError (subject : String) (rawData : String)
  | natsDisconnected
deriving Repr, DecidableEq

/-- Calls the client makes into the transport / broker library
(`nats.connect`, `js.add_stream`, `js.publish`, `js.subscribe`,
`nc.drain`). -/
inductive BrokerOp where
  | natsConnect (url : String)
  | addStream (name : String) (subjects : List String)
  | jsPublish (subject : String) (envelope : Json)
  | jsSubscribe (subject : String) (durable : String)
  | drain

/-- The mutable state of a `NATSClient` object: the constructor arguments and
whether `self._nc` / `self._js` are set (Python truthiness of the two
`| None` fields). -/
structure ClientState where
  natsUrl : String
  streamName : String
  ncSet : Bool
  jsSet : Bool
deriving Repr, DecidableEq

/-- Errors surfaced by the client itself.  The source raises
`RuntimeError("NATS not connected. Call connect() first.")`; the spec's
taxonomy names this `NotConnectedError`. -/
inductive NATSError where
  | notConnected (msg : String)
deriving Repr, DecidableEq

namespace NATSClient

/-- `NATSClient.__init__`: both connection handles start as `None`. -/
def init (natsUrl : String) (streamName : String) : ClientState :=
  { natsUrl := natsUrl, streamName := streamName, ncSet := false, jsSet := false }

/-- The fixed subject list `connect` configures the stream with. -/
def streamSubjects : List String :=
  ["art.>", "order.>", "notification.>"]

/-- `NATSClient.connect`: connects, obtains a JetStream context, and issues
`add_stream` for the client's stream name over `streamSubjects`; logs
`nats_connected`. -/
def connect (st : ClientState) : ClientState × List BrokerOp × List LogRecord :=
  ({ st with ncSet := true, jsSet := true },
   [.natsConnect st.natsUrl, .addStream st.streamName streamSubjects],
   [.natsConnected st.natsUrl st.streamName])

/-- The envelope `publish` builds around the caller's payload, a Python dict
literal with exactly these four keys in this order. -/
def mkEnvelope (eventId : String) (subject : String) (timestamp : String)
    (data : Json) : Json :=
  .obj [("event_id", .str eventId), ("subject", .str subject),
        ("timestamp", .str timestamp), ("data", data)]

/-- `NATSClient.publish`.  The generated UUID (`eventId`), the current
timestamp, and the broker's acknowledgment are parameters standing for the
respective external sources.  On the guard failure nothing is sent and no
state changes; otherwise the envelope goes to the broker and
`event_published` is logged with the ack's stream and sequence.  The Python
function is annotated `-> None`, so the caller-visible result is `Unit`. -/
def publish (st : ClientState) (subject : String) (data : Json)
    (eventId : String) (timestamp : String) (ack : PubAck) :
    Except NATSError (ClientState × List BrokerOp × List LogRecord × Unit) :=
  if !st.jsSet then
    .error (.notConnected "NATS not connected. Call connect() first.")
  else
    .ok (st, [.jsPublish subject (mkEnvelope eventId subject timestamp data)],
         [.eventPublished subject ack.stream ack.seq], ())

/-- Python `str.replace(old, new)` specialised to a single-character `old`:
every occurrence of `old` is replaced by `new`, left to right. -/
def replaceCharList (old : Char) (new : List Char) : List Char → List Char
  | [] => []
  | c :: cs => (if c = old then new else [c]) ++ replaceCharList old new cs

/-- The source's default durable name:
`subject.replace(".", "-").replace(">", "all")`. -/
def defaultDurableName (subject : String) : String :=
  ⟨replaceCharList '>' ['a', 'l', 'l'] (replaceCharList '.' ['-'] subject.data)⟩

/-- The registration half of `NATSClient.subscribe`: the connected guard,
the durable-name default, the `js.subscribe` call and the
`event_subscribed` log.  (The message loop that follows is
`subscriptionLoop` below.) -/
def subscribe (st : ClientState) (subject : String)
    (durableName : Option String) :
    Except NATSError (ClientState × List BrokerOp × List LogRecord) :=
  if !st.jsSet then
    .error (.notConnected "NATS not connected. Call connect() first.")
  else
    let durable := durableName.getD (defaultDurableName subject)
    .ok (st, [.jsSubscribe subject durable], [.eventSubscribed subject durable])

/-- `NATSClient.close`: drains only when `self._nc` is set; the handles are
never cleared. -/
def close (st : ClientState) : ClientState × List BrokerOp × List LogRecord :=
  if st.ncSet then (st, [.drain], [.natsDisconnected]) else (st, [], [])

end NATSClient

/-- A message as delivered to the subscription loop, classified by the
outcome of the two fallible library calls the loop body makes on its bytes:
`msg.data.decode()` (UTF-8) and `json.loads`. -/
inductive RawMsg where
  | badUtf8
  | jsonError (text : String)
  | parsed (text : String) (j : Json)

/-- A positive (`msg.ack()`) or negative (`msg.nak()`) acknowledgment. -/
inductive Ack where
  | ack
  | nak
deriving Repr, DecidableEq

/-- Observable outcome of one iteration of the subscription loop body:
the arguments the caller's handler was invoked with, the acknowledgment
issued (if any), the log records emitted, and whether an exception escaped
the loop body (terminating the `async for` loop). -/
structure StepOutcome where
  handlerCalls : List Json
  ack : Option Ack
  logs : List LogRecord
  crashed : Bool

/-- One iteration of the loop body of `NATSClient.subscribe`, for a handler
modelled by its success/failure outcome on each argument.

* `badUtf8`: `msg.data.decode()` raises `UnicodeDecodeError` inside the
  `try`; the `except` block evaluates `msg.data.decode()` again for the log
  call, which raises again — uncaught, so the iteration crashes having
  neither logged nor acknowledged anything.
* `jsonError`: `json.loads` raises; the `except` block logs
  `event_handler_error` with the decoded text and naks.
* `parsed` to a non-object: `envelope.get` raises `AttributeError` (only
  dicts have `.get`); the `except` block logs and naks.
* `parsed` to an object: the handler gets `envelope.get("data", {})`; on
  success the message is acked, on handler failure the `except` block logs
  and naks. -/
def processMessage (subject : String) (handler : Json → Bool) :
    RawMsg → StepOutcome
  | .badUtf8 =>
      { handlerCalls := [], ack := none, logs := [], crashed := true }
  | .jsonError text =>
      { handlerCalls := [], ack := some .nak,
        logs := [.eventHandlerError subject text], crashed := false }
  | .parsed text j =>
      match j with
      | .obj fields =>
          let dataArg := getD fields "data" (.obj [])
          if handler dataArg then
            { handlerCalls := [dataArg], ack := some .ack, logs := [],
              crashed := false }
          else
            { handlerCalls := [dataArg], ack := some .nak,
              logs := [.eventHandlerError subject text], crashed := false }
      | _ =>
          { handlerCalls := [], ack := some .nak,
            logs := [.eventHandlerError subject text], crashed := false }

/-- The `async for msg in subscription.messages` loop over a finite prefix
of the delivery channel: each message is processed in order, and an
iteration whose body raises an uncaught exception terminates the loop —
later messages are never processed. -/
def subscriptionLoop (subject : String) (handler : Json → Bool) :
    List RawMsg → List (RawMsg × StepOutcome)
  | [] => []
  | m :: ms =>
      let o := processMessage subject handler m
      if o.crashed then [(m, o)]
      else (m, o) :: subscriptionLoop subject handler ms

/-- The durable-name derivation as the spec words it, character by
character: every `.` becomes `-`, every `>` becomes the literal `all`,
everything else is kept verbatim.  Stated independently of the source's
sequential `replace` chain so the two can be compared. -/
def durableNameSpecList : List Char → List Char
  | [] => []
  | c :: cs =>
      (if c = '.' then ['-']
       else if c = '>' then ['a', 'l', 'l']
       else [c]) ++ durableNameSpecList cs

/-- String form of `durableNameSpecList`. -/
def durableNameSpec (s : String) : String :=
  ⟨durableNameSpecList s.data⟩

/-- Modelled from the spec: the external broker's `add_stream` operation,
which is not part of this repository.  Per the spec, "calling connect
multiple times with the same stream name and an overlapping subject set
must not error or duplicate the stream — the broker-side stream is either
created or updated to match", while a stream that "already exists with an
incompatible subject set" may fail.  The broker directory is an association
list from stream name to its subject set; a same-named entry with the same
subjects is left as is, a conflicting one errors (the stricter of the two
policies the spec leaves open), and a fresh name is appended. -/
def brokerAddStream : List (String × List String) → String → List String →
    Except String (List (String × List String))
  | [], name, subjects => .ok [(name, subjects)]
  | p :: rest, name, subjects =>
      if p.1 = name then
        if p.2 = subjects then .ok (p :: rest)
        else .error "stream exists with incompatible subjects"
      else
        match brokerAddStream rest name subjects with
        | .ok rest2 => .ok (p :: rest2)
        | .error e => .error e

/-- `NATSClient.connect` threaded through the spec-modelled broker stream
directory: the transport connects, both handles are set, and `add_stream`
is applied to the directory. -/
def connectWith (st : ClientState) (streams : List (String × List String)) :
    Except String (ClientState × List (String × List String) × List LogRecord) :=
  match brokerAddStream streams st.streamName NATSClient.streamSubjects with
  | .ok streams2 =>
      .ok ({ st with ncSet := true, jsSet := true }, streams2,
           [.natsConnected st.natsUrl st.streamName])
  | .error e => .error e

/-- A client state as it is after a successful `connect`: both handles set. -/
def connectedClient : ClientState :=
  { natsUrl := "nats://localhost:4222", streamName := "ARTISAN",
    ncSet := true, jsSet := true }

theorem replaceCharList_append (old : Char) (new : List Char)
    (xs ys : List Char) :
    NATSClient.replaceCharList old new (xs ++ ys) =
      NATSClient.replaceCharList old new xs ++
        NATSClient.replaceCharList old new ys := by
  induction xs with
  | nil => rfl
  | cons c cs ih => simp [NATSClient.replaceCharList, ih]

theorem replaceCharList_chain (cs : List Char) :
    NATSClient.replaceCharList '>' ['a', 'l', 'l']
        (NATSClient.replaceCharList '.' ['-'] cs) = durableNameSpecList cs := by
  induction cs with
  | nil => rfl
  | cons c cs ih =>
    by_cases h1 : c = '.'
    · subst h1
      simp [NATSClient.replaceCharList, durableNameSpecList,
        replaceCharList_append, ih]
    · by_cases h2 : c = '>'
      · subst h2
        simp [NATSClient.replaceCharList, durableNameSpecList,
          replaceCharList_append, ih]
      · simp [NATSClient.replaceCharList, durableNameSpecList,
          replaceCharList_append, h1, h2, ih]

theorem defaultDurableName_eq_spec (s : String) :
    NATSClient.defaultDurableName s = durableNameSpec s := by
  simp [NATSClient.defaultDurableName, durableNameSpec, replaceCharList_chain]

/-- C1: `publish(S, P)` sends an envelope whose top-level keys are exactly
`event_id`, `subject`, `timestamp`, `data` in that order, with `subject`
bound to `S` and `data` bound to `P`; on the subscriber side, decoding that
envelope hands the handler exactly `P`, and looking up `subject` in the
envelope recovers `S`. -/
theorem envelope_roundtrip (eid S ts text : String)
    (m : List (String × Json)) (handler : Json → Bool) (ack : PubAck) :
    (NATSClient.publish connectedClient S (.obj m) eid ts ack).map
        (fun r => r.2.1) =
      .ok [.jsPublish S (NATSClient.mkEnvelope eid S ts (.obj m))] ∧
    (NATSClient.mkEnvelope eid S ts (.obj m)).topKeys =
      ["event_id", "subject", "timestamp", "data"] ∧
    (NATSClient.mkEnvelope eid S ts (.obj m)).lookup "subject" =
      some (.str S) ∧
    (NATSClient.mkEnvelope eid S ts (.obj m)).lookup "data" =
      some (.obj m) ∧
    (processMessage S handler
        (.parsed text (NATSClient.mkEnvelope eid S ts (.obj m)))).handlerCalls =
      [Json.obj m] := by
  refine ⟨rfl, rfl, rfl, rfl, ?_⟩
  cases h : handler (Json.obj m) <;>
    simp [processMessage, NATSClient.mkEnvelope, getD, lookupLast, h]

/-- C2 (evaluating the code at the failing input): a delivered message
whose bytes are not valid UTF-8 makes the loop body raise out of the
`except` block — the second `msg.data.decode()` in the log call raises
`UnicodeDecodeError` uncaught — so the message is neither logged nor
negatively acknowledged, the handler is not invoked, and the subscription
loop terminates without processing any subsequent message. -/
theorem badUtf8_kills_loop :
    (processMessage "art.created" (fun _ => true) .badUtf8).ack = none ∧
    (processMessage "art.created" (fun _ => true) .badUtf8).handlerCalls = [] ∧
    (processMessage "art.created" (fun _ => true) .badUtf8).logs = [] ∧
    (processMessage "art.created" (fun _ => true) .badUtf8).crashed = true ∧
    subscriptionLoop "art.created" (fun _ => true)
        [.badUtf8, .parsed "x" (.obj [("data", .obj [])])] =
      [(.badUtf8, processMessage "art.created" (fun _ => true) .badUtf8)] :=
  ⟨rfl, rfl, rfl, rfl, rfl⟩

/-- C3: for a message that deserializes to a JSON envelope (an object), the
handler is invoked exactly once with the envelope's data mapping, exactly
one acknowledgment is issued — positive if and only if the handler
succeeds, negative (with an `event_handler_error` log) if it fails — and
the loop goes on to the next message in either case. -/
theorem handler_ack_outcome (S text : String) (fields : List (String × Json))
    (handler : Json → Bool) (ms : List RawMsg) :
    processMessage S handler (.parsed text (.obj fields)) =
      { handlerCalls := [getD fields "data" (.obj [])],
        ack := some (if handler (getD fields "data" (.obj []))
                     then Ack.ack else Ack.nak),
        logs := if handler (getD fields "data" (.obj []))
                then [] else [.eventHandlerError S text],
        crashed := false } ∧
    subscriptionLoop S handler (.parsed text (.obj fields) :: ms) =
      (RawMsg.parsed text (.obj fields),
        processMessage S handler (.parsed text (.obj fields))) ::
        subscriptionLoop S handler ms := by
  cases h : handler (getD fields "data" (.obj [])) <;>
    constructor <;>
    simp [processMessage, subscriptionLoop, h]

/-- C4: `subscribe` without an explicit durable name uses the name obtained
from the subject pattern by replacing every `.` with `-` and every `>` with
the literal `all` (each other character kept), as `durableNameSpec`
states it; `art.>` yields `art-all` and `art.created` yields
`art-created` as instances. -/
theorem subscribe_default_durable (st : ClientState) (s : String)
    (h : st.jsSet = true) :
    NATSClient.subscribe st s none =
      .ok (st, [.jsSubscribe s (durableNameSpec s)],
           [.eventSubscribed s (durableNameSpec s)]) := by
  simp [NATSClient.subscribe, h, defaultDurableName_eq_spec]

/-- Witness for C4 at the subject `art.>` of the spec's own example: the
derived durable name evaluates to `art-all`. -/
theorem subscribe_default_durable_witness :
    connectedClient.jsSet = true ∧
    NATSClient.subscribe connectedClient "art.>" none =
      .ok (connectedClient, [.jsSubscribe "art.>" "art-all"],
           [.eventSubscribed "art.>" "art-all"]) :=
  ⟨rfl, subscribe_default_durable connectedClient "art.>" rfl⟩

/-- C10: the default durable-name derivation touches only `.` and `>`; the
single-token wildcard `*` is kept verbatim, so `subscribe("art.*")` without
an explicit durable name registers the durable name `art-*`. -/
theorem subscribe_star_verbatim :
    NATSClient.subscribe connectedClient "art.*" none =
      .ok (connectedClient, [.jsSubscribe "art.*" "art-*"],
           [.eventSubscribed "art.*" "art-*"]) := rfl

/-- C5 (counterexample): after a successful connect followed by close, a
publish does not fail with NotConnectedError — `close` drains but never
clears `_js`, so the guard does not fire — and a broker publish call is
issued on the drained connection. -/
theorem publish_after_close_counterexample :
    NATSClient.publish
        (NATSClient.close
          (NATSClient.connect
            (NATSClient.init "nats://localhost:4222" "ARTISAN")).1).1
        "art.created" (.obj []) "eid-1" "2026-01-01T00:00:00+00:00"
        { stream := "ARTISAN", seq := 1 } =
      .ok ({ natsUrl := "nats://localhost:4222", streamName := "ARTISAN",
             ncSet := true, jsSet := true },
           [.jsPublish "art.created"
             (NATSClient.mkEnvelope "eid-1" "art.created"
               "2026-01-01T00:00:00+00:00" (.obj []))],
           [.eventPublished "art.created" "ARTISAN" 1], ()) := rfl

/-- C5 (amended): before a successful connect — that is, whenever the
JetStream handle `_js` is unset — every publish and subscribe fails
immediately with NotConnectedError, leaving the state unchanged and making
no broker call; after `close()` the guard does not apply, because close
leaves both handles set. -/
theorem not_connected_guard (st : ClientState) (h : st.jsSet = false)
    (subject : String) (data : Json) (eid ts : String) (ack : PubAck)
    (dn : Option String) :
    NATSClient.publish st subject data eid ts ack =
      .error (.notConnected "NATS not connected. Call connect() first.") ∧
    NATSClient.subscribe st subject dn =
      .error (.notConnected "NATS not connected. Call connect() first.") := by
  constructor <;> simp [NATSClient.publish, NATSClient.subscribe, h]

/-- Witness for C5 (amended) on a freshly constructed client. -/
theorem not_connected_guard_witness :
    (NATSClient.init "nats://localhost:4222" "ARTISAN").jsSet = false ∧
    NATSClient.publish (NATSClient.init "nats://localhost:4222" "ARTISAN")
        "art.created" (.obj []) "eid-1" "2026-01-01T00:00:00+00:00"
        { stream := "ARTISAN", seq := 1 } =
      .error (.notConnected "NATS not connected. Call connect() first.") :=
  ⟨rfl,
   (not_connected_guard (NATSClient.init "nats://localhost:4222" "ARTISAN")
      rfl "art.created" (.obj []) "eid-1" "2026-01-01T00:00:00+00:00"
      { stream := "ARTISAN", seq := 1 } none).1⟩

/-- C6 (counterexample): the value publish hands back to the caller is the
same `()` whatever sequence number and stream the broker assigns — two
publishes acknowledged with different stream/sequence pairs return
identical caller-visible values — so the broker-assigned sequence number
and stream identifier are not returned to the caller. -/
theorem publish_return_counterexample :
    (NATSClient.publish connectedClient "art.created" (.obj [])
        "eid-1" "2026-01-01T00:00:00+00:00"
        { stream := "ARTISAN", seq := 7 }).map (fun r => r.2.2.2) =
      .ok () ∧
    (NATSClient.publish connectedClient "art.created" (.obj [])
        "eid-1" "2026-01-01T00:00:00+00:00"
        { stream := "OTHER", seq := 99 }).map (fun r => r.2.2.2) =
      .ok () :=
  ⟨rfl, rfl⟩

/-- C6 (amended): a successful publish returns nothing to the caller (the
function is `-> None`); the broker-assigned stream identifier and sequence
number are recorded in the `event_published` log record instead. -/
theorem publish_logs_ack (st : ClientState) (h : st.jsSet = true)
    (subject : String) (data : Json) (eid ts : String) (ack : PubAck) :
    NATSClient.publish st subject data eid ts ack =
      .ok (st, [.jsPublish subject (NATSClient.mkEnvelope eid subject ts data)],
           [.eventPublished subject ack.stream ack.seq], ()) := by
  simp [NATSClient.publish, h]

/-- Witness for C6 (amended) at a concrete connected state and ack. -/
theorem publish_logs_ack_witness :
    connectedClient.jsSet = true ∧
    NATSClient.publish connectedClient "art.created" (.obj [])
        "eid-1" "2026-01-01T00:00:00+00:00"
        { stream := "ARTISAN", seq := 7 } =
      .ok (connectedClient,
           [.jsPublish "art.created"
             (NATSClient.mkEnvelope "eid-1" "art.created"
               "2026-01-01T00:00:00+00:00" (.obj []))],
           [.eventPublished "art.created" "ARTISAN" 7], ()) :=
  ⟨rfl,
   publish_logs_ack connectedClient rfl "art.created" (.obj [])
     "eid-1" "2026-01-01T00:00:00+00:00" { stream := "ARTISAN", seq := 7 }⟩

theorem brokerAddStream_idem (streams streams1 : List (String × List String))
    (name : String) (subjects : List String)
    (h : brokerAddStream streams name subjects = .ok streams1) :
    brokerAddStream streams1 name subjects = .ok streams1 := by
  induction streams generalizing streams1 with
  | nil =>
    simp [brokerAddStream] at h
    subst h
    simp [brokerAddStream]
  | cons p rest ih =>
    by_cases hp : p.1 = name
    · by_cases hs : p.2 = subjects
      · simp [brokerAddStream, hp, hs] at h
        subst h
        simp [brokerAddStream, hp, hs]
      · simp [brokerAddStream, hp, hs] at h
    · simp [brokerAddStream, hp] at h
      cases hrest : brokerAddStream rest name subjects with
      | ok rest2 =>
        rw [hrest] at h
        simp at h
        subst h
        simp [brokerAddStream, hp, ih rest2 hrest]
      | error e =>
        rw [hrest] at h
        simp at h

/-- C7: connect is idempotent — when a connect succeeds, running connect
again from the resulting client state on the resulting broker stream
directory succeeds with exactly the same client state, the same stream
configuration, and the same log record, raising no duplicate-stream
error even under the broker policy that rejects conflicting subject
sets. -/
theorem connect_idempotent (st st1 : ClientState)
    (streams streams1 : List (String × List String)) (logs1 : List LogRecord)
    (h : connectWith st streams = .ok (st1, streams1, logs1)) :
    connectWith st1 streams1 = .ok (st1, streams1, logs1) := by
  unfold connectWith at h ⊢
  cases hadd : brokerAddStream streams st.streamName NATSClient.streamSubjects with
  | ok streams2 =>
    rw [hadd] at h
    simp at h
    obtain ⟨hst, hstr, hlog⟩ := h
    subst hst hstr hlog
    rw [brokerAddStream_idem streams streams2 st.streamName
      NATSClient.streamSubjects hadd]
  | error e =>
    rw [hadd] at h
    simp at h

/-- Witness for C7: a first connect on an empty broker directory, then the
theorem applied to it. -/
theorem connect_idempotent_witness :
    connectWith (NATSClient.init "nats://localhost:4222" "ARTISAN") [] =
      .ok (connectedClient, [("ARTISAN", NATSClient.streamSubjects)],
           [.natsConnected "nats://localhost:4222" "ARTISAN"]) ∧
    connectWith connectedClient [("ARTISAN", NATSClient.streamSubjects)] =
      .ok (connectedClient, [("ARTISAN", NATSClient.streamSubjects)],
           [.natsConnected "nats://localhost:4222" "ARTISAN"]) :=
  ⟨rfl,
   connect_idempotent (NATSClient.init "nats://localhost:4222" "ARTISAN")
     connectedClient [] [("ARTISAN", NATSClient.streamSubjects)]
     [.natsConnected "nats://localhost:4222" "ARTISAN"] rfl⟩

/-- C8 (counterexample): a second close after a successful close is not
observationally a no-op: because close never clears `_nc`, each close of a
connected client drains again and logs `nats_disconnected` again, so two
closes issue two drain calls where one close issues one. -/
theorem close_twice_counterexample :
    (NATSClient.close
        (NATSClient.connect
          (NATSClient.init "nats://localhost:4222" "ARTISAN")).1).2.1 ++
      (NATSClient.close
        (NATSClient.close
          (NATSClient.connect
            (NATSClient.init "nats://localhost:4222" "ARTISAN")).1).1).2.1 ≠
    (NATSClient.close
        (NATSClient.connect
          (NATSClient.init "nats://localhost:4222" "ARTISAN")).1).2.1 := by
  intro h
  exact absurd (congrArg List.length h) (by decide)

/-- C8 (amended): close on a never-connected client is a no-op and raises
no error; but close is not idempotent after a connect — the connection
handle is never cleared, so a second close drains the connection again and
emits a second `nats_disconnected` record, just like the first. -/
theorem close_amended (st : ClientState) :
    (st.ncSet = false → NATSClient.close st = (st, [], [])) ∧
    (st.ncSet = true →
      NATSClient.close st = (st, [.drain], [.natsDisconnected]) ∧
      NATSClient.close (NATSClient.close st).1 =
        (st, [.drain], [.natsDisconnected])) := by
  constructor
  · intro h
    simp [NATSClient.close, h]
  · intro h
    constructor <;> simp [NATSClient.close, h]

/-- Witness for C8 (amended): both branches discharged, on a fresh client
and on a connected one. -/
theorem close_amended_witness :
    NATSClient.close (NATSClient.init "nats://localhost:4222" "ARTISAN") =
      (NATSClient.init "nats://localhost:4222" "ARTISAN", [], []) ∧
    NATSClient.close connectedClient =
      (connectedClient, [.drain], [.natsDisconnected]) :=
  ⟨(close_amended (NATSClient.init "nats://localhost:4222" "ARTISAN")).1 rfl,
   ((close_amended connectedClient).2 rfl).1⟩

/-- C9: a message that parses to a JSON object with no `data` key is not a
decode failure: the handler is invoked with the empty mapping, and when the
handler succeeds the message is positively acknowledged with no error
log. -/
theorem missing_data_defaults_empty (S text : String)
    (fields : List (String × Json)) (handler : Json → Bool)
    (hnone : lookupLast fields "data" = none)
    (hok : handler (.obj []) = true) :
    processMessage S handler (.parsed text (.obj fields)) =
      { handlerCalls := [.obj []], ack := some .ack, logs := [],
        crashed := false } := by
  simp [processMessage, getD, hnone, hok]

/-- Witness for C9: an envelope carrying only a `subject` field, with a
handler that always succeeds. -/
theorem missing_data_defaults_empty_witness :
    lookupLast [("subject", Json.str "art.created")] "data" = none ∧
    processMessage "art.created" (fun _ => true)
        (.parsed "x" (.obj [("subject", .str "art.created")])) =
      { handlerCalls := [.obj []], ack := some .ack, logs := [],
        crashed := false } :=
  ⟨rfl,
   missing_data_defaults_empty "art.created" "x"
     [("subject", .str "art.created")] (fun _ => true) rfl rfl⟩

end ArtisanEvents
